import Mathlib

/-
Shallow embedding of the job scheduler core found in
internal/server/singleprocess/state/job.go.

Modelling conventions:
  * Protobuf messages become structures whose fields keep the Go names;
    pointer-valued fields become Option.  Timestamps are modelled as Nat
    (whole seconds); every verb that reads the clock takes an explicit
    `now` argument.  The two timeouts are 2 minutes = 120 seconds.
  * The boltdb bucket and the memdb table are association lists; an insert
    replaces any record with the same key, matching the unique primary
    index of the memdb schema and the keyed bucket.
  * Live timers (time.AfterFunc handles held in jobIndex.StateTimer) are
    modelled as an Option Timer carrying the callback kind and the
    absolute deadline; Stop clears the field, Reset rewrites the deadline.
  * Each verb runs its memdb write transaction with `defer txn.Abort()`
    and commits only on the success path, and all bolt writes happen
    after the verb's precondition checks, so a verb that returns an error
    leaves the state unchanged; the embedding therefore returns
    `Except Err (State × result)` and the caller keeps the old state on
    error.
-/

namespace Waypoint

/-- Status codes used by the scheduler (google.golang.org/grpc/codes). -/
inductive Code where
  | NotFound
  | FailedPrecondition
  | InvalidArgument
  | Canceled
deriving DecidableEq, Repr

/-- A serialized grpc status (code + message), as stored in Job.Error. -/
structure StatusProto where
  code : Code
  message : String
deriving DecidableEq, Repr

/-- Errors returned by the scheduler.  The source produces either a grpc
status error via status.Errorf (carrying a code) or a plain formatted error
via fmt.Errorf (carrying no code); the two are kept distinct. -/
inductive Err where
  | status (code : Code) (msg : String)
  | plain (msg : String)
deriving DecidableEq, Repr

namespace pb

/-- Job state enum of the wire protocol (pb.Job_State). -/
inductive Job_State where
  | UNKNOWN
  | QUEUED
  | WAITING
  | RUNNING
  | ERROR
  | SUCCESS
deriving DecidableEq, Repr

/-- String rendering of the state enum, as used in error messages. -/
def Job_State.str : Job_State → String
  | Job_State.UNKNOWN => "UNKNOWN"
  | Job_State.QUEUED => "QUEUED"
  | Job_State.WAITING => "WAITING"
  | Job_State.RUNNING => "RUNNING"
  | Job_State.ERROR => "ERROR"
  | Job_State.SUCCESS => "SUCCESS"

/-- Application reference (pb.Ref_Application): project and application. -/
structure Ref_Application where
  project : String
  application : String
deriving DecidableEq, Repr

/-- Workspace reference (pb.Ref_Workspace). -/
structure Ref_Workspace where
  workspace : String
deriving DecidableEq, Repr

/-- The oneof inside pb.Ref_Runner: target any runner, or a runner by id. -/
inductive Ref_Runner_Target where
  | Any
  | Id (id : String)
deriving DecidableEq, Repr

/-- Runner target selector (pb.Ref_Runner).  Target is the oneof field; a
non-nil Ref_Runner may still carry a nil oneof value, which the source
treats as an unknown target variant. -/
structure Ref_Runner where
  Target : Option Ref_Runner_Target
deriving DecidableEq, Repr

/-- Opaque result payload (pb.Job_Result); never interpreted by the core. -/
structure Job_Result where
  raw : String
deriving DecidableEq, Repr

/-- Persisted job record (pb.Job).  The defaults are the protobuf zero
values, so `{}` is the freshly allocated record of the Go source. -/
structure Job where
  Id : String := ""
  Application : Option Ref_Application := none
  Workspace : Option Ref_Workspace := none
  TargetRunner : Option Ref_Runner := none
  Operation : Option Nat := none
  QueueTime : Option Nat := none
  AssignTime : Option Nat := none
  AckTime : Option Nat := none
  CompleteTime : Option Nat := none
  CancelTime : Option Nat := none
  ExpireTime : Option Nat := none
  State : Job_State := Job_State.UNKNOWN
  Result : Option Job_Result := none
  Error : Option StatusProto := none
deriving DecidableEq, Repr

end pb

/-- What a live StateTimer will do when it fires: the waiting timer nacks
the job (JobAck id false), the heartbeat timer force-cancels it
(JobCancel id true). -/
inductive TimerKind where
  | waiting
  | heartbeat
deriving DecidableEq, Repr

/-- A live one-shot timer handle: its callback kind and absolute deadline
(arm time plus duration). -/
structure Timer where
  kind : TimerKind
  deadline : Nat
deriving DecidableEq, Repr

/-- In-memory index record over a persisted job (jobIndex in job.go).
OpType carries the operation-variant tag (reflect.TypeOf in the source). -/
structure jobIndex where
  Id : String
  OpType : Option Nat
  Application : Option pb.Ref_Application
  Workspace : Option pb.Ref_Workspace
  QueueTime : Nat
  TargetAny : Bool
  TargetRunnerId : String
  State : pb.Job_State
  StateTimer : Option Timer
  OutputBuffer : Bool
deriving DecidableEq, Repr

/-- Exported Job structure returned by most state APIs (Job in job.go):
the persisted record plus the OutputBuffer handle (modelled as presence)
and the Blocked flag. -/
structure Job where
  Job : pb.Job
  OutputBuffer : Bool
  Blocked : Bool
deriving DecidableEq, Repr

/-- Key of the blocked-scope tracker: the (application, workspace) pair. -/
structure scopeKey where
  app : Option pb.Ref_Application
  ws : Option pb.Ref_Workspace
deriving DecidableEq, Repr

/-- Scheduler state (struct State): the bolt jobs bucket, the memdb jobs
table, and the blocked-scope tracker map. -/
structure State where
  db : List (String × pb.Job)
  inmem : List jobIndex
  jobAssigned : List (scopeKey × String)
deriving DecidableEq, Repr

/-- Modelled from the spec: a runner registry record (spec section 6 and
the glossary); runner.go is not among the provided sources.  A runner has
an id and may accept only jobs targeted at it by id. -/
structure runnerRecord where
  Id : String
  ByIdOnly : Bool
deriving DecidableEq, Repr

/-- Waiting-ack timeout, 2 minutes (jobWaitingTimeout), in seconds. -/
def jobWaitingTimeout : Nat := 120

/-- Heartbeat timeout, 2 minutes (jobHeartbeatTimeout), in seconds. -/
def jobHeartbeatTimeout : Nat := 120

/-- Protobuf zero value of pb.Job: what Go allocates with `var result
pb.Job` in jobById. -/
def zeroJob : pb.Job := {}

/-- Lookup in the memdb jobs table by the unique primary id index. -/
def findIdx (l : List jobIndex) (id : String) : Option jobIndex :=
  l.find? (fun x => decide (x.Id = id))

/-- Insert into the memdb jobs table: replaces the record with the same
id, as the unique primary index does. -/
def idxInsert (l : List jobIndex) (j : jobIndex) : List jobIndex :=
  j :: l.filter (fun x => decide (x.Id ≠ j.Id))

/-- Read of the bolt jobs bucket at a key. -/
def dbLookup (db : List (String × pb.Job)) (id : String) : Option pb.Job :=
  (db.find? (fun e => decide (e.1 = id))).map (fun e => e.2)

/-- Write of the bolt jobs bucket at a key (dbPut): replaces the value. -/
def dbPut (db : List (String × pb.Job)) (id : String) (j : pb.Job) :
    List (String × pb.Job) :=
  (id, j) :: db.filter (fun e => decide (e.1 ≠ id))

/-- The scope of a job index record: its (application, workspace) pair. -/
def scopeOf (j : jobIndex) : scopeKey :=
  { app := j.Application, ws := j.Workspace }

/-- Lookup of the blocked-scope tracker map. -/
def lookupScope (m : List (scopeKey × String)) (k : scopeKey) :
    Option String :=
  (m.find? (fun e => decide (e.1 = k))).map (fun e => e.2)

/-- Modelled from the spec: the persistent-store read primitive dbGet
(spec section 4.1, Get(id) returns the record or NotFound); its source
(state.go) is not among the provided files.  On a missing key it returns a
NotFound status error and does not touch the caller's record. -/
def dbGet (db : List (String × pb.Job)) (id : String) : Except Err pb.Job :=
  match dbLookup db id with
  | some j => Except.ok j
  | none =>
      Except.error (Err.status Code.NotFound ("record not found for ID: " ++ id))

/-- Modelled from the spec: jobAssignedSet of the blocked-scope tracker
(spec section 4.3); its source (job_assigned.go) is not among the provided
files.  Sets or clears the (application, workspace) to job-id entry,
atomically with the enclosing index write transaction. -/
def jobAssignedSet (m : List (scopeKey × String)) (job : jobIndex)
    (assigned : Bool) : List (scopeKey × String) :=
  let k := scopeOf job
  let rest := m.filter (fun e => decide (e.1 ≠ k))
  if assigned then (k, job.Id) :: rest else rest

/-- Modelled from the spec: jobIsBlocked of the blocked-scope tracker
(spec section 4.3); its source (job_assigned.go) is not among the provided
files.  True iff the job's scope currently maps to a job id other than
this one. -/
def jobIsBlocked (m : List (scopeKey × String)) (job : jobIndex) : Bool :=
  match lookupScope m (scopeOf job) with
  | some jid => jid != job.Id
  | none => false

/-- The NotFound error every id-taking verb returns on an unknown id. -/
def notFoundErr (id : String) : Err :=
  Err.status Code.NotFound ("job not found: " ++ id)

/-- Mirrors jobById (job.go): allocates a zero-value record and fills it
via dbGet; the (always non-nil) record is returned together with the read
error, so the record is the zero value exactly when the read failed. -/
def State.jobById (s : State) (id : String) : pb.Job × Option Err :=
  match dbGet s.db id with
  | Except.ok j => (j, none)
  | Except.error e => (zeroJob, some e)

/-- Mirrors jobIndexSet (job.go): builds the in-memory index record for a
persisted job and inserts it into the table.  The waiting and heartbeat
timers are re-armed for restored WAITING and RUNNING records.  The
optional absolute-expiry timer armed at the end of the source function is
owned by the runtime, not the record, and is outside the modelled state.
A nil QueueTime fails the timestamp conversion, as ptypes.Timestamp does. -/
def State.jobIndexSet (s : State) (jobpb : pb.Job) (now : Nat) :
    Except Err (List jobIndex × jobIndex) :=
  match jobpb.TargetRunner with
  | none => Except.error (Err.plain ("job target runner must be set"))
  | some tr =>
    match tr.Target with
    | none => Except.error (Err.plain ("unknown runner target value"))
    | some t =>
      match jobpb.QueueTime with
      | none => Except.error (Err.plain ("timestamp conversion failed"))
      | some qt =>
        let r : jobIndex :=
          { Id := jobpb.Id,
            OpType := jobpb.Operation,
            Application := jobpb.Application,
            Workspace := jobpb.Workspace,
            QueueTime := qt,
            TargetAny := match t with
              | pb.Ref_Runner_Target.Any => true
              | _ => false,
            TargetRunnerId := match t with
              | pb.Ref_Runner_Target.Id rid => rid
              | _ => "",
            State := jobpb.State,
            StateTimer :=
              if jobpb.State = pb.Job_State.WAITING then
                some { kind := TimerKind.waiting,
                       deadline := now + jobWaitingTimeout }
              else if jobpb.State = pb.Job_State.RUNNING then
                some { kind := TimerKind.heartbeat,
                       deadline := now + jobHeartbeatTimeout }
              else none,
            OutputBuffer := false }
        Except.ok (idxInsert s.inmem r, r)

/-- Mirrors jobCreate (job.go): forces State to QUEUED, stamps QueueTime
with the current time, persists the record and indexes it.  In the source
the bolt put precedes jobIndexSet, but an index error makes the enclosing
db.Update roll the put back and skips the memdb commit, so on error
nothing is persisted or indexed. -/
def State.jobCreate (s : State) (jobpb : pb.Job) (now : Nat) :
    Except Err State :=
  let j := { jobpb with State := pb.Job_State.QUEUED, QueueTime := some now }
  match s.jobIndexSet j now with
  | Except.error e => Except.error e
  | Except.ok (l, _) =>
      Except.ok { s with db := dbPut s.db j.Id j, inmem := l }

/-- Mirrors JobCreate (job.go): the transactional wrapper of jobCreate. -/
def State.JobCreate (s : State) (jobpb : pb.Job) (now : Nat) :
    Except Err State :=
  s.jobCreate jobpb now

/-- Mirrors JobList (job.go): iterates every index record and reads each
persisted record.  The per-record read error is assigned but never
checked, and the function returns a nil error, so a failed read leaves the
(non-nil) zero-value record in that entry's position.  Entries are Option
to model the Go pointer slice. -/
def State.JobList (s : State) : Except Err (List (Option pb.Job)) :=
  Except.ok (s.inmem.map (fun ix => some (s.jobById ix.Id).1))

/-- Mirrors JobById (job.go): a missing id yields a nil result and a nil
error.  For a present record the Blocked flag is recomputed for QUEUED
jobs and the persisted record is read back.  The source returns the read
error together with a partially built result; only the error is modelled
on that path. -/
def State.JobById (s : State) (id : String) : Except Err (Option Job) :=
  match findIdx s.inmem id with
  | none => Except.ok none
  | some jobIdx =>
    let blocked :=
      if jobIdx.State = pb.Job_State.QUEUED then
        jobIsBlocked s.jobAssigned jobIdx
      else false
    match s.jobById jobIdx.Id with
    | (_, some e) => Except.error e
    | (jobpb, none) =>
        Except.ok (some { Job := jobpb, OutputBuffer := jobIdx.OutputBuffer,
                          Blocked := blocked })

/-- Mirrors JobAck (job.go): acknowledges or rejects an assigned job.
Only WAITING jobs can be acked.  On ack the job moves to RUNNING, AckTime
is stamped and the output buffer is created; on nack it moves back to
QUEUED and AssignTime is cleared.  The source stops the old state timer
and then arms the heartbeat timer unconditionally, on the nack path as
well; the model reproduces that behaviour exactly.  A nack also frees the
scope. -/
def State.JobAck (s : State) (id : String) (ack : Bool) (now : Nat) :
    Except Err (State × Job) :=
  match findIdx s.inmem id with
  | none => Except.error (notFoundErr id)
  | some job =>
    if job.State ≠ pb.Job_State.WAITING then
      Except.error (Err.status Code.FailedPrecondition
        ("job can't be acked from state: " ++ job.State.str))
    else
      match s.jobById job.Id with
      | (_, some e) => Except.error e
      | (jobpb, none) =>
        let job2 : jobIndex :=
          if ack then
            { job with State := pb.Job_State.RUNNING, OutputBuffer := true }
          else
            { job with State := pb.Job_State.QUEUED }
        let jobpb2 : pb.Job :=
          if ack then
            { jobpb with State := pb.Job_State.RUNNING, AckTime := some now }
          else
            { jobpb with State := pb.Job_State.QUEUED, AssignTime := none }
        let job3 : jobIndex :=
          { job2 with StateTimer := some { kind := TimerKind.heartbeat,
                                           deadline := now + jobHeartbeatTimeout } }
        let s2 : State :=
          { db := dbPut s.db job.Id jobpb2,
            inmem := idxInsert s.inmem job3,
            jobAssigned :=
              if ack then s.jobAssigned
              else jobAssignedSet s.jobAssigned job3 false }
        Except.ok (s2, { Job := jobpb2, OutputBuffer := job3.OutputBuffer,
                         Blocked := false })

/-- Mirrors JobComplete (job.go): completes a RUNNING job, successfully
when no error is given and as failed otherwise.  The scope is freed, the
result payload and CompleteTime are stored, a given error is stored as the
job error, and End() stops the state timer. -/
def State.JobComplete (s : State) (id : String) (result : Option pb.Job_Result)
    (cerr : Option StatusProto) (now : Nat) : Except Err State :=
  match findIdx s.inmem id with
  | none => Except.error (notFoundErr id)
  | some job =>
    let assigned2 := jobAssignedSet s.jobAssigned job false
    if job.State ≠ pb.Job_State.RUNNING then
      Except.error (Err.status Code.FailedPrecondition
        ("job can't be completed from state: " ++ job.State.str))
    else
      match s.jobById job.Id with
      | (_, some e) => Except.error e
      | (jobpb, none) =>
        let st := match cerr with
          | none => pb.Job_State.SUCCESS
          | some _ => pb.Job_State.ERROR
        let jobpb2 : pb.Job :=
          { jobpb with
            State := st,
            Result := result,
            CompleteTime := some now,
            Error := match cerr with
              | none => jobpb.Error
              | some c => some c }
        let job2 : jobIndex := { job with State := st, StateTimer := none }
        Except.ok { db := dbPut s.db job.Id jobpb2,
                    inmem := idxInsert s.inmem job2,
                    jobAssigned := assigned2 }

/-- Mirrors jobCancel (job.go): terminal jobs are untouched; QUEUED jobs
move straight to ERROR; WAITING and RUNNING jobs move to ERROR (and End()
stops their timer) only when forced, and otherwise only CancelTime is
recorded for downstream listeners.  Whenever the resulting state is ERROR
the stored error becomes Canceled/"canceled".  The scope tracker is not
updated on any path. -/
def State.jobCancel (s : State) (job : jobIndex) (force : Bool) (now : Nat) :
    Except Err State :=
  match job.State with
  | pb.Job_State.ERROR => Except.ok s
  | pb.Job_State.SUCCESS => Except.ok s
  | _ =>
    let job2 : jobIndex :=
      match job.State with
      | pb.Job_State.QUEUED => { job with State := pb.Job_State.ERROR }
      | pb.Job_State.WAITING =>
          if force then
            { job with State := pb.Job_State.ERROR, StateTimer := none }
          else job
      | pb.Job_State.RUNNING =>
          if force then
            { job with State := pb.Job_State.ERROR, StateTimer := none }
          else job
      | _ => job
    match s.jobById job.Id with
    | (_, some e) => Except.error e
    | (jobpb, none) =>
      let jobpb2 : pb.Job :=
        { jobpb with State := job2.State, CancelTime := some now }
      let jobpb3 : pb.Job :=
        if jobpb2.State = pb.Job_State.ERROR then
          { jobpb2 with Error := some { code := Code.Canceled,
                                        message := "canceled" } }
        else jobpb2
      Except.ok { s with db := dbPut s.db job.Id jobpb3,
                         inmem := idxInsert s.inmem job2 }

/-- Mirrors JobCancel (job.go): looks the job up and delegates to
jobCancel. -/
def State.JobCancel (s : State) (id : String) (force : Bool) (now : Nat) :
    Except Err State :=
  match findIdx s.inmem id with
  | none => Except.error (notFoundErr id)
  | some job => s.jobCancel job force now

/-- Mirrors jobHeartbeat (job.go): unknown ids are NotFound; jobs not in
RUNNING are left untouched without error, as is a RUNNING job with no
live timer; otherwise the timer is Reset to a fresh heartbeat timeout. -/
def State.jobHeartbeat (s : State) (id : String) (now : Nat) :
    Except Err State :=
  match findIdx s.inmem id with
  | none => Except.error (notFoundErr id)
  | some job =>
    if job.State ≠ pb.Job_State.RUNNING then Except.ok s
    else
      match job.StateTimer with
      | none => Except.ok s
      | some t =>
          Except.ok { s with
            inmem := idxInsert s.inmem
              { job with StateTimer := some ⟨t.kind, now + jobHeartbeatTimeout⟩ } }

/-- Mirrors JobHeartbeat (job.go): the transactional wrapper of
jobHeartbeat. -/
def State.JobHeartbeat (s : State) (id : String) (now : Nat) :
    Except Err State :=
  s.jobHeartbeat id now

/-- Mirrors JobExpire (job.go): QUEUED and WAITING jobs are cancelled
without force; every other state commits with no change. -/
def State.JobExpire (s : State) (id : String) (now : Nat) :
    Except Err State :=
  match findIdx s.inmem id with
  | none => Except.error (notFoundErr id)
  | some job =>
    match job.State with
    | pb.Job_State.QUEUED => s.jobCancel job false now
    | pb.Job_State.WAITING => s.jobCancel job false now
    | _ => Except.ok s

/-- Candidate ordering used to model the memdb iteration order of the
queue-time composite indexes: ascending QueueTime with the primary key as
tie break (memdb appends the primary key to non-unique index keys). -/
def better (j b : jobIndex) : Bool :=
  if j.QueueTime < b.QueueTime then true
  else if j.QueueTime = b.QueueTime ∧ j.Id < b.Id then true
  else false

/-- Minimum of a list of index records under `better`. -/
def minByQueueTime : List jobIndex → Option jobIndex
  | [] => none
  | j :: rest =>
    match minByQueueTime rest with
    | none => some j
    | some b => if better j b then some j else some b

/-- Mirrors jobCandidateById (job.go): the LowerBound scan of the
target-id index yields QUEUED records for this runner in ascending
QueueTime order and skips every record that fails the state, target or
blocked check; it is modelled as the QueueTime-minimum over the eligible
records. -/
def State.jobCandidateById (s : State) (r : runnerRecord) :
    Option jobIndex :=
  minByQueueTime (s.inmem.filter (fun j =>
    decide (j.State = pb.Job_State.QUEUED) &&
      decide (j.TargetRunnerId = r.Id) &&
      !(jobIsBlocked s.jobAssigned j)))

/-- Mirrors jobCandidateAny (job.go): the LowerBound scan of the
queue-time index, keeping QUEUED records with TargetAny that are not
blocked; modelled as the QueueTime-minimum over the eligible records. -/
def State.jobCandidateAny (s : State) (r : runnerRecord) :
    Option jobIndex :=
  minByQueueTime (s.inmem.filter (fun j =>
    decide (j.State = pb.Job_State.QUEUED) &&
      j.TargetAny &&
      !(jobIsBlocked s.jobAssigned j)))

/-- Go sort.Slice with QueueTime.Before over the at-most-two candidates:
its insertion sort swaps exactly when the second strictly precedes the
first, so equal queue times keep the targeted candidate first. -/
def sortCandidates : List jobIndex → List jobIndex
  | [a, b] => if b.QueueTime < a.QueueTime then [b, a] else [a, b]
  | l => l

/-- Outcome of one non-blocking pass of the assignment engine: a job was
assigned, or every candidate was invalid or absent so the source would
block and retry (goto RETRY_ASSIGN), or a store error surfaced. -/
inductive AssignOutcome where
  | assigned (s : State) (job : Job)
  | wouldBlock
  | failed (e : Err)
deriving DecidableEq, Repr

/-- Mirrors the commit loop of JobAssignForRunner (job.go): re-read each
candidate by id under the write lock, re-verify it is still QUEUED and not
blocked, then flip it to WAITING, stamp AssignTime, arm the waiting
timer, reinsert the index record and register the scope assignment. -/
def State.jobAssignAttempt (s : State) (now : Nat) :
    List jobIndex → AssignOutcome
  | [] => AssignOutcome.wouldBlock
  | c :: rest =>
    match findIdx s.inmem c.Id with
    | none => s.jobAssignAttempt now rest
    | some job =>
      if job.State ≠ pb.Job_State.QUEUED then s.jobAssignAttempt now rest
      else if jobIsBlocked s.jobAssigned job then s.jobAssignAttempt now rest
      else
        match s.jobById job.Id with
        | (_, some e) => AssignOutcome.failed e
        | (jobpb, none) =>
          let job2 : jobIndex :=
            { job with
                State := pb.Job_State.WAITING,
                StateTimer := some ⟨TimerKind.waiting, now + jobWaitingTimeout⟩ }
          let jobpb2 : pb.Job :=
            { jobpb with
                State := pb.Job_State.WAITING,
                AssignTime := some now }
          let s2 : State :=
            { db := dbPut s.db job.Id jobpb2,
              inmem := idxInsert s.inmem job2,
              jobAssigned := jobAssignedSet s.jobAssigned job2 true }
          AssignOutcome.assigned s2
            { Job := jobpb2, OutputBuffer := job2.OutputBuffer,
              Blocked := false }

/-- One non-blocking pass of JobAssignForRunner (job.go): gather the by-id
candidate and (unless the runner is ByIdOnly) the any candidate, sort them
by queue time and attempt each in order.  The blocking retry loop of the
source corresponds to repeating this pass whenever it returns wouldBlock. -/
def State.jobAssignOnce (s : State) (r : runnerRecord) (now : Nat) :
    AssignOutcome :=
  let cs : List jobIndex :=
    match s.jobCandidateById r,
          (if r.ByIdOnly then none else s.jobCandidateAny r) with
    | some a, some b => [a, b]
    | some a, none => [a]
    | none, some b => [b]
    | none, none => []
  s.jobAssignAttempt now (sortCandidates cs)

/-
Concrete scheduler states used to evaluate the operations, and small
projections of operation results used to state evaluation facts.
-/

/-- A scheduler state with no jobs at all. -/
def emptyState : State := { db := [], inmem := [], jobAssigned := [] }

/-- A sample application reference. -/
def c1app : pb.Ref_Application := { project := "p", application := "web" }

/-- A sample workspace reference. -/
def c1ws : pb.Ref_Workspace := { workspace := "default" }

/-- A persisted WAITING job that was assigned at time 2. -/
def c1job : pb.Job :=
  { Id := "j1",
    Application := some c1app,
    Workspace := some c1ws,
    TargetRunner := some { Target := some pb.Ref_Runner_Target.Any },
    Operation := some 1,
    QueueTime := some 1,
    AssignTime := some 2,
    State := pb.Job_State.WAITING }

/-- The index record of c1job, with its waiting timer armed. -/
def c1idx : jobIndex :=
  { Id := "j1", OpType := some 1, Application := some c1app,
    Workspace := some c1ws, QueueTime := 1, TargetAny := true,
    TargetRunnerId := "", State := pb.Job_State.WAITING,
    StateTimer := some ⟨TimerKind.waiting, 122⟩, OutputBuffer := false }

/-- A state holding exactly the WAITING job j1, whose scope is assigned. -/
def c1state : State :=
  { db := [("j1", c1job)], inmem := [c1idx],
    jobAssigned := [(scopeOf c1idx, "j1")] }

/-- Projection of a JobAck result: the job's index state and timer, its
persisted AssignTime, and the scope-tracker entry for its scope. -/
def ackEval (s : State) (id : String) (ack : Bool) (now : Nat) :
    Option (pb.Job_State × Option Timer × Option (Option Nat) × Option String) :=
  match s.JobAck id ack now with
  | Except.ok (s2, _) =>
    match findIdx s2.inmem id with
    | some j =>
        some (j.State, j.StateTimer,
          (dbLookup s2.db id).map (fun p => p.AssignTime),
          lookupScope s2.jobAssigned (scopeOf j))
    | none => none
  | Except.error _ => none

/-- A persisted RUNNING job in the same scope as c1job. -/
def c2jobA : pb.Job :=
  { Id := "a", Application := some c1app, Workspace := some c1ws,
    TargetRunner := some { Target := some pb.Ref_Runner_Target.Any },
    QueueTime := some 1, AssignTime := some 2, AckTime := some 3,
    State := pb.Job_State.RUNNING }

/-- The index record of c2jobA, with its heartbeat timer armed. -/
def c2idxA : jobIndex :=
  { Id := "a", OpType := none, Application := some c1app,
    Workspace := some c1ws, QueueTime := 1, TargetAny := true,
    TargetRunnerId := "", State := pb.Job_State.RUNNING,
    StateTimer := some ⟨TimerKind.heartbeat, 130⟩, OutputBuffer := true }

/-- A later QUEUED job in the same scope as c2jobA. -/
def c2jobB : pb.Job :=
  { Id := "b", Application := some c1app, Workspace := some c1ws,
    TargetRunner := some { Target := some pb.Ref_Runner_Target.Any },
    QueueTime := some 2, State := pb.Job_State.QUEUED }

/-- The index record of c2jobB. -/
def c2idxB : jobIndex :=
  { Id := "b", OpType := none, Application := some c1app,
    Workspace := some c1ws, QueueTime := 2, TargetAny := true,
    TargetRunnerId := "", State := pb.Job_State.QUEUED,
    StateTimer := none, OutputBuffer := false }

/-- A state with RUNNING job a holding the scope and QUEUED job b waiting
behind it. -/
def c2state : State :=
  { db := [("a", c2jobA), ("b", c2jobB)], inmem := [c2idxA, c2idxB],
    jobAssigned := [(scopeOf c2idxA, "a")] }

/-- Projection of a JobCancel result: the cancelled job's index state, the
scope-tracker entry for a second job's scope, and whether that second job
is blocked afterwards. -/
def cancelEval (s : State) (id other : String) (force : Bool) (now : Nat) :
    Option (Option pb.Job_State × Option (Option String) × Option Bool) :=
  match s.JobCancel id force now with
  | Except.ok s2 =>
      some ((findIdx s2.inmem id).map (fun j => j.State),
        (findIdx s2.inmem other).map
          (fun j => lookupScope s2.jobAssigned (scopeOf j)),
        (findIdx s2.inmem other).map (fun j => jobIsBlocked s2.jobAssigned j))
  | Except.error _ => none

/-- A persisted WAITING job used to evaluate JobExpire. -/
def c3job : pb.Job :=
  { Id := "w", Application := some c1app, Workspace := some c1ws,
    TargetRunner := some { Target := some pb.Ref_Runner_Target.Any },
    QueueTime := some 3, AssignTime := some 4,
    State := pb.Job_State.WAITING }

/-- The index record of c3job, with its waiting timer armed. -/
def c3idx : jobIndex :=
  { Id := "w", OpType := none, Application := some c1app,
    Workspace := some c1ws, QueueTime := 3, TargetAny := true,
    TargetRunnerId := "", State := pb.Job_State.WAITING,
    StateTimer := some ⟨TimerKind.waiting, 124⟩, OutputBuffer := false }

/-- A state holding exactly the WAITING job w, whose scope is assigned. -/
def c3state : State :=
  { db := [("w", c3job)], inmem := [c3idx],
    jobAssigned := [(scopeOf c3idx, "w")] }

/-- Projection of a JobExpire result: the job's index state and its
persisted CancelTime. -/
def expireEval (s : State) (id : String) (now : Nat) :
    Option (Option pb.Job_State × Option (Option Nat)) :=
  match s.JobExpire id now with
  | Except.ok s2 =>
      some ((findIdx s2.inmem id).map (fun j => j.State),
        (dbLookup s2.db id).map (fun p => p.CancelTime))
  | Except.error _ => none

/-- Whether a JobById result is a NotFound status error. -/
def isNotFoundErr (r : Except Err (Option Job)) : Bool :=
  match r with
  | Except.error (Err.status Code.NotFound _) => true
  | _ => false

/-- A job submitted with no TargetRunner at all. -/
def c5job : pb.Job := { Id := "x" }

/-- The status code, if any, of a failed JobCreate. -/
def createErrCode (s : State) (jobpb : pb.Job) (now : Nat) : Option Code :=
  match s.JobCreate jobpb now with
  | Except.error (Err.status c _) => some c
  | _ => none

/-- The state after JobCreate, with the transaction-abort semantics of the
source: on error both the bolt update and the memdb transaction roll
back, so the state is unchanged. -/
def createPost (s : State) (jobpb : pb.Job) (now : Nat) : State :=
  match s.JobCreate jobpb now with
  | Except.ok s2 => s2
  | Except.error _ => s

/-- A persisted RUNNING job used to evaluate JobComplete and
JobHeartbeat. -/
def c6job : pb.Job :=
  { Id := "r1", Application := some c1app, Workspace := some c1ws,
    TargetRunner := some { Target := some pb.Ref_Runner_Target.Any },
    QueueTime := some 5, AssignTime := some 6, AckTime := some 7,
    State := pb.Job_State.RUNNING }

/-- The index record of c6job, with its heartbeat timer armed. -/
def c6idx : jobIndex :=
  { Id := "r1", OpType := none, Application := some c1app,
    Workspace := some c1ws, QueueTime := 5, TargetAny := true,
    TargetRunnerId := "", State := pb.Job_State.RUNNING,
    StateTimer := some ⟨TimerKind.heartbeat, 127⟩, OutputBuffer := true }

/-- A state holding exactly the RUNNING job r1, whose scope is assigned. -/
def c6state : State :=
  { db := [("r1", c6job)], inmem := [c6idx],
    jobAssigned := [(scopeOf c6idx, "r1")] }

/-- The state after JobAck, with the transaction-abort semantics of the
source: the state check precedes every write, and an error path aborts
the memdb transaction, so the state is unchanged on error. -/
def ackPost (s : State) (id : String) (ack : Bool) (now : Nat) : State :=
  match s.JobAck id ack now with
  | Except.ok (s2, _) => s2
  | Except.error _ => s

/-- The state after JobComplete, with the transaction-abort semantics of
the source. -/
def completePost (s : State) (id : String) (result : Option pb.Job_Result)
    (cerr : Option StatusProto) (now : Nat) : State :=
  match s.JobComplete id result cerr now with
  | Except.ok s2 => s2
  | Except.error _ => s

/-- A runner polling for work. -/
def c9runner : runnerRecord := { Id := "run1", ByIdOnly := false }

/-- A QUEUED job targeted at runner run1, queued at time 5. -/
def c9jobT : pb.Job :=
  { Id := "t", Application := some c1app, Workspace := some c1ws,
    TargetRunner := some { Target := some (pb.Ref_Runner_Target.Id "run1") },
    QueueTime := some 5, State := pb.Job_State.QUEUED }

/-- The index record of c9jobT. -/
def c9idxT : jobIndex :=
  { Id := "t", OpType := none, Application := some c1app,
    Workspace := some c1ws, QueueTime := 5, TargetAny := false,
    TargetRunnerId := "run1", State := pb.Job_State.QUEUED,
    StateTimer := none, OutputBuffer := false }

/-- A QUEUED job targeting any runner, queued earlier, at time 3. -/
def c9jobY : pb.Job :=
  { Id := "y", Application := some c1app, Workspace := some c1ws,
    TargetRunner := some { Target := some pb.Ref_Runner_Target.Any },
    QueueTime := some 3, State := pb.Job_State.QUEUED }

/-- The index record of c9jobY. -/
def c9idxY : jobIndex :=
  { Id := "y", OpType := none, Application := some c1app,
    Workspace := some c1ws, QueueTime := 3, TargetAny := true,
    TargetRunnerId := "", State := pb.Job_State.QUEUED,
    StateTimer := none, OutputBuffer := false }

/-- A state with one runner-targeted and one any-targeted QUEUED job. -/
def c9state : State :=
  { db := [("t", c9jobT), ("y", c9jobY)], inmem := [c9idxT, c9idxY],
    jobAssigned := [] }

/-- An index record whose persisted counterpart is missing from the
store, so reading it back fails. -/
def c10idx : jobIndex :=
  { Id := "ghost", OpType := none, Application := none, Workspace := none,
    QueueTime := 0, TargetAny := false, TargetRunnerId := "",
    State := pb.Job_State.QUEUED, StateTimer := none,
    OutputBuffer := false }

/-- A state whose only index record has no persisted record behind it. -/
def c10state : State := { db := [], inmem := [c10idx], jobAssigned := [] }

/-
Supporting lemmas about the store, index and tracker primitives.
-/

/-- Inserting an index record makes it the one found under its id. -/
theorem findIdx_idxInsert (l : List jobIndex) (j : jobIndex) :
    findIdx (idxInsert l j) j.Id = some j := by
  simp [findIdx, idxInsert]

/-- Writing the bucket at a key makes the written record the one read. -/
theorem dbLookup_dbPut (db : List (String × pb.Job)) (id : String)
    (j : pb.Job) : dbLookup (dbPut db id j) id = some j := by
  simp [dbLookup, dbPut]

/-- Clearing a job's scope entry leaves no entry for that scope. -/
theorem lookupScope_clear (m : List (scopeKey × String)) (job : jobIndex) :
    lookupScope (jobAssignedSet m job false) (scopeOf job) = none := by
  have h : List.find? (fun e => decide (e.1 = scopeOf job))
      (List.filter (fun e => decide (e.1 ≠ scopeOf job)) m) = none := by
    rw [List.find?_eq_none]
    intro x hx
    have hx2 := (List.mem_filter.mp hx).2
    simp at hx2 ⊢
    exact hx2
  simp [lookupScope, jobAssignedSet, h]

/-- The minimum returned by minByQueueTime is a member of the list. -/
theorem minByQueueTime_mem :
    ∀ {l : List jobIndex} {j : jobIndex},
      minByQueueTime l = some j → j ∈ l := by
  intro l
  induction l with
  | nil => intro j h; simp [minByQueueTime] at h
  | cons a t ih =>
    intro j h
    unfold minByQueueTime at h
    cases hm : minByQueueTime t with
    | none =>
      rw [hm] at h
      simp at h
      simp [h]
    | some b =>
      rw [hm] at h
      by_cases hab : better a b = true
      · simp [hab] at h
        simp [h]
      · simp [hab] at h
        subst h
        exact List.mem_cons_of_mem a (ih hm)

/-- In a table whose ids are distinct, looking a member up by its id
returns exactly that member. -/
theorem findIdx_of_nodup :
    ∀ {l : List jobIndex} {a : jobIndex},
      a ∈ l → (l.map (fun x => x.Id)).Nodup → findIdx l a.Id = some a := by
  intro l
  induction l with
  | nil => intro a h _; simp at h
  | cons x t ih =>
    intro a hmem hnd
    rw [List.map_cons, List.nodup_cons] at hnd
    rcases List.mem_cons.mp hmem with h1 | h2
    · subst h1
      simp [findIdx]
    · by_cases hx : x.Id = a.Id
      · exact absurd (hx ▸ List.mem_map.mpr ⟨a, h2, rfl⟩) hnd.1
      · have hrec := ih h2 hnd.2
        unfold findIdx at hrec ⊢
        rw [List.find?_cons_of_neg]
        · exact hrec
        · simp [hx]

/-- A by-id candidate is an indexed QUEUED job targeting the runner that
is not blocked. -/
theorem jobCandidateById_spec {s : State} {r : runnerRecord} {j : jobIndex}
    (h : s.jobCandidateById r = some j) :
    j ∈ s.inmem ∧ j.State = pb.Job_State.QUEUED ∧ j.TargetRunnerId = r.Id ∧
      jobIsBlocked s.jobAssigned j = false := by
  unfold State.jobCandidateById at h
  have hmem := minByQueueTime_mem h
  have hf := List.mem_filter.mp hmem
  have hp := hf.2
  simp only [Bool.and_eq_true, decide_eq_true_eq, Bool.not_eq_true'] at hp
  exact ⟨hf.1, hp.1.1, hp.1.2, hp.2⟩

/-- An any candidate is an indexed QUEUED job with TargetAny that is not
blocked. -/
theorem jobCandidateAny_spec {s : State} {r : runnerRecord} {j : jobIndex}
    (h : s.jobCandidateAny r = some j) :
    j ∈ s.inmem ∧ j.State = pb.Job_State.QUEUED ∧ j.TargetAny = true ∧
      jobIsBlocked s.jobAssigned j = false := by
  unfold State.jobCandidateAny at h
  have hmem := minByQueueTime_mem h
  have hf := List.mem_filter.mp hmem
  have hp := hf.2
  simp only [Bool.and_eq_true, decide_eq_true_eq, Bool.not_eq_true'] at hp
  exact ⟨hf.1, hp.1.1, hp.1.2, hp.2⟩

/-- Variant of findIdx_idxInsert stated for any id equal to the inserted
record's id. -/
theorem findIdx_idxInsert' (l : List jobIndex) (j : jobIndex) (i : String)
    (h : j.Id = i) : findIdx (idxInsert l j) i = some j := by
  subst h
  exact findIdx_idxInsert l j

/-- A nack on an indexed WAITING job with a persisted record: the job
returns to QUEUED with AssignTime cleared and its scope freed, and the
source leaves a freshly armed heartbeat timer on the record. -/
theorem JobAck_nack {s : State} {id : String} {job : jobIndex}
    {jobpb : pb.Job} (now : Nat)
    (hf : findIdx s.inmem id = some job)
    (hw : job.State = pb.Job_State.WAITING)
    (hdb : dbLookup s.db job.Id = some jobpb) :
    s.JobAck id false now = Except.ok
      ({ db := dbPut s.db job.Id
            { jobpb with State := pb.Job_State.QUEUED, AssignTime := none },
         inmem := idxInsert s.inmem
           { job with
               State := pb.Job_State.QUEUED,
               StateTimer := some ⟨TimerKind.heartbeat, now + jobHeartbeatTimeout⟩ },
         jobAssigned := jobAssignedSet s.jobAssigned
           { job with
               State := pb.Job_State.QUEUED,
               StateTimer := some ⟨TimerKind.heartbeat, now + jobHeartbeatTimeout⟩ }
           false },
       { Job := { jobpb with State := pb.Job_State.QUEUED, AssignTime := none },
         OutputBuffer := job.OutputBuffer, Blocked := false }) := by
  unfold State.JobAck
  rw [hf]
  simp [hw, State.jobById, dbGet, hdb]

/-- The commit loop assigns the first candidate that re-reads as a QUEUED,
unblocked job with a persisted record. -/
theorem jobAssignAttempt_head {s : State} {now : Nat} {c : jobIndex}
    {rest : List jobIndex} {pc : pb.Job}
    (hf : findIdx s.inmem c.Id = some c)
    (hq : c.State = pb.Job_State.QUEUED)
    (hb : jobIsBlocked s.jobAssigned c = false)
    (hdb : dbLookup s.db c.Id = some pc) :
    s.jobAssignAttempt now (c :: rest) =
      AssignOutcome.assigned
        { db := dbPut s.db c.Id
            { pc with State := pb.Job_State.WAITING, AssignTime := some now },
          inmem := idxInsert s.inmem
            { c with
                State := pb.Job_State.WAITING,
                StateTimer := some ⟨TimerKind.waiting, now + jobWaitingTimeout⟩ },
          jobAssigned := jobAssignedSet s.jobAssigned
            { c with
                State := pb.Job_State.WAITING,
                StateTimer := some ⟨TimerKind.waiting, now + jobWaitingTimeout⟩ }
            true }
        { Job := { pc with State := pb.Job_State.WAITING, AssignTime := some now },
          OutputBuffer := c.OutputBuffer, Blocked := false } := by
  unfold State.jobAssignAttempt
  rw [hf]
  simp [hq, hb, State.jobById, dbGet, hdb]

/-
The claims.
-/

/-- C1: the operations do not preserve the claimed timer invariant, and
Ack(id, false) does not leave the job without a live timer.  Evaluating
JobAck("j1", false) at time 10 on the WAITING job j1: the job is left in
QUEUED with AssignTime cleared and its scope freed, but with a live
heartbeat StateTimer (deadline 130 = 10 + 120), because the source arms a
fresh heartbeat timer unconditionally after cancelling the waiting
timer, on the nack path as well. -/
theorem Ack_false_timer_eval :
    ackEval c1state "j1" false 10 =
      some (pb.Job_State.QUEUED, some ⟨TimerKind.heartbeat, 130⟩,
        some none, none) := rfl

/-- C2: leaving WAITING or RUNNING through a forced cancel does not
release the scope.  Evaluating JobCancel("a", force) at time 50 on the
RUNNING job a: the job reaches ERROR, yet the scope tracker still maps
the job's scope to "a", and the later QUEUED job b in the same scope is
still blocked. -/
theorem Cancel_force_scope_eval :
    cancelEval c2state "a" "b" true 50 =
      some (some pb.Job_State.ERROR, some (some "a"), some true) := rfl

/-- C3 counterexample: JobExpire on the WAITING job w does not move it to
ERROR; the job stays WAITING and only its CancelTime is recorded. -/
theorem Expire_waiting_counterexample :
    expireEval c3state "w" 30 =
      some (some pb.Job_State.WAITING, some (some 30)) := rfl

/-- C3 (amended): JobExpire cancels without force, so an existing QUEUED
job moves to ERROR with the stored error Canceled/"canceled"; an existing
WAITING job keeps its state (and timer) and only has CancelTime recorded,
leaving completion to downstream listeners; and a RUNNING or terminal job
is left entirely unchanged. -/
theorem Expire_behavior :
    (∀ (s : State) (id : String) (job : jobIndex) (jobpb : pb.Job) (now : Nat),
      findIdx s.inmem id = some job → job.State = pb.Job_State.QUEUED →
      dbLookup s.db job.Id = some jobpb →
      s.JobExpire id now = Except.ok
        { s with
            db := dbPut s.db job.Id
              { jobpb with
                  State := pb.Job_State.ERROR,
                  CancelTime := some now,
                  Error := some { code := Code.Canceled, message := "canceled" } },
            inmem := idxInsert s.inmem { job with State := pb.Job_State.ERROR } }) ∧
    (∀ (s : State) (id : String) (job : jobIndex) (jobpb : pb.Job) (now : Nat),
      findIdx s.inmem id = some job → job.State = pb.Job_State.WAITING →
      dbLookup s.db job.Id = some jobpb →
      s.JobExpire id now = Except.ok
        { s with
            db := dbPut s.db job.Id
              { jobpb with State := pb.Job_State.WAITING, CancelTime := some now },
            inmem := idxInsert s.inmem job }) ∧
    (∀ (s : State) (id : String) (job : jobIndex) (now : Nat),
      findIdx s.inmem id = some job →
      (job.State = pb.Job_State.RUNNING ∨ job.State = pb.Job_State.SUCCESS ∨
        job.State = pb.Job_State.ERROR) →
      s.JobExpire id now = Except.ok s) := by
  refine ⟨?_, ?_, ?_⟩
  · intro s id job jobpb now hf hq hdb
    unfold State.JobExpire State.jobCancel
    rw [hf]
    simp [hq, State.jobById, dbGet, hdb]
  · intro s id job jobpb now hf hw hdb
    unfold State.JobExpire State.jobCancel
    rw [hf]
    simp [hw, State.jobById, dbGet, hdb]
  · intro s id job now hf hst
    unfold State.JobExpire
    rw [hf]
    rcases hst with h | h | h <;> simp [h]

/-- C3 witness: expiring the QUEUED job b of c2state moves it to ERROR
with the Canceled error stored. -/
theorem Expire_behavior_witness :
    c2state.JobExpire "b" 40 = Except.ok
      { c2state with
          db := dbPut c2state.db "b"
            { c2jobB with
                State := pb.Job_State.ERROR,
                CancelTime := some 40,
                Error := some { code := Code.Canceled, message := "canceled" } },
          inmem := idxInsert c2state.inmem
            { c2idxB with State := pb.Job_State.ERROR } } :=
  Expire_behavior.1 c2state "b" c2idxB c2jobB 40 rfl rfl rfl

/-- C4 counterexample: JobById on an id that does not exist returns a nil
result together with a nil error, not a NotFound error. -/
theorem JobById_missing_counterexample :
    emptyState.JobById "nope" = Except.ok none ∧
      isNotFoundErr (emptyState.JobById "nope") = false :=
  ⟨rfl, rfl⟩

/-- C4 (amended): JobAck, JobComplete, JobCancel, JobHeartbeat and
JobExpire return a NotFound error naming the id when it does not exist,
while JobById returns a nil result with no error. -/
theorem NotFound_on_unknown_id (s : State) (id : String) (ack : Bool)
    (res : Option pb.Job_Result) (cerr : Option StatusProto) (force : Bool)
    (now : Nat) (h : findIdx s.inmem id = none) :
    s.JobAck id ack now = Except.error (notFoundErr id) ∧
    s.JobComplete id res cerr now = Except.error (notFoundErr id) ∧
    s.JobCancel id force now = Except.error (notFoundErr id) ∧
    s.JobHeartbeat id now = Except.error (notFoundErr id) ∧
    s.JobExpire id now = Except.error (notFoundErr id) ∧
    s.JobById id = Except.ok none := by
  refine ⟨?_, ?_, ?_, ?_, ?_, ?_⟩ <;>
    · first
      | (unfold State.JobAck; rw [h])
      | (unfold State.JobComplete; rw [h])
      | (unfold State.JobCancel; rw [h])
      | (unfold State.JobHeartbeat State.jobHeartbeat; rw [h])
      | (unfold State.JobExpire; rw [h])
      | (unfold State.JobById; rw [h])

/-- C4 witness: every id-taking verb on the empty state returns NotFound,
and JobById returns a nil result without error. -/
theorem NotFound_on_unknown_id_witness :
    emptyState.JobAck "z" true 0 = Except.error (notFoundErr "z") ∧
    emptyState.JobComplete "z" none none 0 = Except.error (notFoundErr "z") ∧
    emptyState.JobCancel "z" false 0 = Except.error (notFoundErr "z") ∧
    emptyState.JobHeartbeat "z" 0 = Except.error (notFoundErr "z") ∧
    emptyState.JobExpire "z" 0 = Except.error (notFoundErr "z") ∧
    emptyState.JobById "z" = Except.ok none :=
  NotFound_on_unknown_id emptyState "z" true none none false 0 rfl

/-- C5 counterexample: Create with an unset TargetRunner fails with a
plain formatted error that carries no status code, not with an
InvalidArgument status error. -/
theorem Create_error_counterexample :
    emptyState.JobCreate c5job 0 =
        Except.error (Err.plain ("job target runner must be set")) ∧
      createErrCode emptyState c5job 0 ≠ some Code.InvalidArgument :=
  ⟨rfl, by decide⟩

/-- C5 (amended): JobCreate stamps QueueTime with the current time and
forces State to QUEUED regardless of the input record's fields; with an
unset TargetRunner or an unknown target variant it fails with a plain
formatted error (not a status error) and the state is unchanged, so the
job is neither persisted nor indexed. -/
theorem Create_behavior :
    (∀ (s : State) (j : pb.Job) (now : Nat), j.TargetRunner = none →
      s.JobCreate j now =
          Except.error (Err.plain ("job target runner must be set")) ∧
        createPost s j now = s) ∧
    (∀ (s : State) (j : pb.Job) (tr : pb.Ref_Runner) (now : Nat),
      j.TargetRunner = some tr → tr.Target = none →
      s.JobCreate j now =
          Except.error (Err.plain ("unknown runner target value")) ∧
        createPost s j now = s) ∧
    (∀ (s : State) (j : pb.Job) (tr : pb.Ref_Runner)
        (t : pb.Ref_Runner_Target) (now : Nat),
      j.TargetRunner = some tr → tr.Target = some t →
      ∃ s2, s.JobCreate j now = Except.ok s2 ∧
        dbLookup s2.db j.Id =
          some { j with State := pb.Job_State.QUEUED, QueueTime := some now } ∧
        (findIdx s2.inmem j.Id).map (fun x => x.State) =
          some pb.Job_State.QUEUED) := by
  refine ⟨?_, ?_, ?_⟩
  · intro s j now h
    have hc : s.JobCreate j now =
        Except.error (Err.plain ("job target runner must be set")) := by
      unfold State.JobCreate State.jobCreate State.jobIndexSet
      simp [h]
    exact ⟨hc, by simp [createPost, hc]⟩
  · intro s j tr now h1 h2
    have hc : s.JobCreate j now =
        Except.error (Err.plain ("unknown runner target value")) := by
      unfold State.JobCreate State.jobCreate State.jobIndexSet
      simp [h1, h2]
    exact ⟨hc, by simp [createPost, hc]⟩
  · intro s j tr t now h1 h2
    unfold State.JobCreate State.jobCreate State.jobIndexSet
    simp only [h1, h2]
    refine ⟨_, rfl, ?_, ?_⟩
    · rw [dbLookup_dbPut]
    · rw [findIdx_idxInsert']
      · rfl
      · rfl

/-- C5 witness: creating a job with no target fails with the plain error
and changes nothing, while creating the any-targeted job y at time 11
persists and indexes it as QUEUED with QueueTime 11. -/
theorem Create_behavior_witness :
    (emptyState.JobCreate c5job 0 =
        Except.error (Err.plain ("job target runner must be set")) ∧
      createPost emptyState c5job 0 = emptyState) ∧
    (∃ s2, emptyState.JobCreate c9jobY 11 = Except.ok s2 ∧
      dbLookup s2.db "y" =
        some { c9jobY with State := pb.Job_State.QUEUED, QueueTime := some 11 } ∧
      (findIdx s2.inmem "y").map (fun x => x.State) =
        some pb.Job_State.QUEUED) :=
  ⟨Create_behavior.1 emptyState c5job 0 rfl,
   Create_behavior.2.2 emptyState c9jobY
     { Target := some pb.Ref_Runner_Target.Any } pb.Ref_Runner_Target.Any
     11 rfl rfl⟩

/-- C6: JobComplete on an existing RUNNING job succeeds; it moves the job
to SUCCESS when no error is given and to ERROR when one is, stores the
result payload and CompleteTime (and the error descriptor when given),
stops the state timer, and frees the job's scope. -/
theorem JobComplete_running (s : State) (id : String) (job : jobIndex)
    (jobpb : pb.Job) (res : Option pb.Job_Result) (cerr : Option StatusProto)
    (now : Nat)
    (hf : findIdx s.inmem id = some job)
    (hr : job.State = pb.Job_State.RUNNING)
    (hdb : dbLookup s.db job.Id = some jobpb) :
    ∃ s2, s.JobComplete id res cerr now = Except.ok s2 ∧
      findIdx s2.inmem job.Id =
        some { job with
            State := (match cerr with
              | none => pb.Job_State.SUCCESS
              | some _ => pb.Job_State.ERROR),
            StateTimer := none } ∧
      dbLookup s2.db job.Id =
        some { jobpb with
            State := (match cerr with
              | none => pb.Job_State.SUCCESS
              | some _ => pb.Job_State.ERROR),
            Result := res,
            CompleteTime := some now,
            Error := (match cerr with
              | none => jobpb.Error
              | some c => some c) } ∧
      lookupScope s2.jobAssigned (scopeOf job) = none := by
  cases cerr with
  | none =>
    unfold State.JobComplete
    rw [hf]
    simp only [hr, State.jobById, dbGet, hdb]
    refine ⟨_, rfl, ?_, ?_, ?_⟩
    · rw [findIdx_idxInsert']
      rfl
    · rw [dbLookup_dbPut]
    · exact lookupScope_clear s.jobAssigned job
  | some c =>
    unfold State.JobComplete
    rw [hf]
    simp only [hr, State.jobById, dbGet, hdb]
    refine ⟨_, rfl, ?_, ?_, ?_⟩
    · rw [findIdx_idxInsert']
      rfl
    · rw [dbLookup_dbPut]
    · exact lookupScope_clear s.jobAssigned job

/-- C6 witness: completing the RUNNING job r1 with a result and an error
yields ERROR with the result, CompleteTime, stored error, stopped timer
and freed scope. -/
theorem JobComplete_running_witness :
    ∃ s2, c6state.JobComplete "r1" (some { raw := "out" })
        (some { code := Code.Canceled, message := "boom" }) 9 =
          Except.ok s2 ∧
      findIdx s2.inmem "r1" =
        some { c6idx with State := pb.Job_State.ERROR, StateTimer := none } ∧
      dbLookup s2.db "r1" =
        some { c6job with
            State := pb.Job_State.ERROR,
            Result := some { raw := "out" },
            CompleteTime := some 9,
            Error := some { code := Code.Canceled, message := "boom" } } ∧
      lookupScope s2.jobAssigned (scopeOf c6idx) = none :=
  JobComplete_running c6state "r1" c6idx c6job (some { raw := "out" })
    (some { code := Code.Canceled, message := "boom" }) 9 rfl rfl rfl

/-- C7: Ack on an existing job not in WAITING and Complete on an existing
job not in RUNNING fail with FailedPrecondition naming the current state
and leave the state unchanged; after a first Ack(id, false) on a WAITING
job the state is QUEUED, so a second Ack(id, false) fails with
FailedPrecondition. -/
theorem Ack_Complete_failed_precondition :
    (∀ (s : State) (id : String) (job : jobIndex) (ack : Bool) (now : Nat),
      findIdx s.inmem id = some job → job.State ≠ pb.Job_State.WAITING →
      s.JobAck id ack now = Except.error (Err.status Code.FailedPrecondition
          ("job can't be acked from state: " ++ job.State.str)) ∧
        ackPost s id ack now = s) ∧
    (∀ (s : State) (id : String) (job : jobIndex) (res : Option pb.Job_Result)
        (cerr : Option StatusProto) (now : Nat),
      findIdx s.inmem id = some job → job.State ≠ pb.Job_State.RUNNING →
      s.JobComplete id res cerr now =
          Except.error (Err.status Code.FailedPrecondition
            ("job can't be completed from state: " ++ job.State.str)) ∧
        completePost s id res cerr now = s) ∧
    (∀ (s : State) (id : String) (job : jobIndex) (jobpb : pb.Job)
        (n1 n2 : Nat),
      findIdx s.inmem id = some job → job.State = pb.Job_State.WAITING →
      job.Id = id → dbLookup s.db id = some jobpb →
      ∃ s2 j2, s.JobAck id false n1 = Except.ok (s2, j2) ∧
        (findIdx s2.inmem id).map (fun x => x.State) =
          some pb.Job_State.QUEUED ∧
        s2.JobAck id false n2 = Except.error (Err.status Code.FailedPrecondition
          ("job can't be acked from state: QUEUED"))) := by
  refine ⟨?_, ?_, ?_⟩
  · intro s id job ack now hf hne
    have hA : s.JobAck id ack now =
        Except.error (Err.status Code.FailedPrecondition
          ("job can't be acked from state: " ++ job.State.str)) := by
      unfold State.JobAck
      rw [hf]
      simp [hne]
    exact ⟨hA, by simp [ackPost, hA]⟩
  · intro s id job res cerr now hf hne
    have hC : s.JobComplete id res cerr now =
        Except.error (Err.status Code.FailedPrecondition
          ("job can't be completed from state: " ++ job.State.str)) := by
      unfold State.JobComplete
      rw [hf]
      simp [hne]
    exact ⟨hC, by simp [completePost, hC]⟩
  · intro s id job jobpb n1 n2 hf hw hid hdb
    subst hid
    have h1 := JobAck_nack n1 hf hw hdb
    refine ⟨_, _, h1, ?_, ?_⟩
    · rw [findIdx_idxInsert']
      · rfl
      · rfl
    · unfold State.JobAck
      rw [findIdx_idxInsert']
      · simp
        rfl
      · rfl

/-- C7 witness: acking the RUNNING job r1 fails naming RUNNING and leaves
the state unchanged; completing the WAITING job j1 fails naming WAITING;
and a double nack of j1 ends with FailedPrecondition naming QUEUED. -/
theorem Ack_Complete_failed_precondition_witness :
    (c6state.JobAck "r1" true 1 =
        Except.error (Err.status Code.FailedPrecondition
          ("job can't be acked from state: RUNNING")) ∧
      ackPost c6state "r1" true 1 = c6state) ∧
    (c1state.JobComplete "j1" none none 1 =
        Except.error (Err.status Code.FailedPrecondition
          ("job can't be completed from state: WAITING")) ∧
      completePost c1state "j1" none none 1 = c1state) ∧
    (∃ s2 j2, c1state.JobAck "j1" false 4 = Except.ok (s2, j2) ∧
      (findIdx s2.inmem "j1").map (fun x => x.State) =
        some pb.Job_State.QUEUED ∧
      s2.JobAck "j1" false 6 = Except.error (Err.status Code.FailedPrecondition
        ("job can't be acked from state: QUEUED"))) :=
  ⟨Ack_Complete_failed_precondition.1 c6state "r1" c6idx true 1 rfl
     (by decide),
   Ack_Complete_failed_precondition.2.1 c1state "j1" c1idx none none 1 rfl
     (by decide),
   Ack_Complete_failed_precondition.2.2 c1state "j1" c1idx c1job 4 6
     rfl rfl rfl rfl⟩

/-- C8: JobHeartbeat returns NotFound for an unknown id; for an existing
job not in RUNNING it succeeds and changes nothing; and for a RUNNING job
with a live timer it succeeds, resets the timer deadline to a full
heartbeat timeout from now, and leaves the store, the tracker and every
other field of the job unchanged. -/
theorem Heartbeat_behavior :
    (∀ (s : State) (id : String) (now : Nat), findIdx s.inmem id = none →
      s.JobHeartbeat id now = Except.error (notFoundErr id)) ∧
    (∀ (s : State) (id : String) (job : jobIndex) (now : Nat),
      findIdx s.inmem id = some job → job.State ≠ pb.Job_State.RUNNING →
      s.JobHeartbeat id now = Except.ok s) ∧
    (∀ (s : State) (id : String) (job : jobIndex) (t : Timer) (now : Nat),
      findIdx s.inmem id = some job → job.State = pb.Job_State.RUNNING →
      job.StateTimer = some t →
      s.JobHeartbeat id now = Except.ok
        { s with
            inmem := idxInsert s.inmem
              { job with
                  StateTimer := some ⟨t.kind, now + jobHeartbeatTimeout⟩ } }) := by
  refine ⟨?_, ?_, ?_⟩
  · intro s id now h
    unfold State.JobHeartbeat State.jobHeartbeat
    rw [h]
  · intro s id job now hf hne
    unfold State.JobHeartbeat State.jobHeartbeat
    rw [hf]
    simp [hne]
  · intro s id job t now hf hr htm
    unfold State.JobHeartbeat State.jobHeartbeat
    rw [hf]
    simp [hr, htm]

/-- C8 witness: heartbeat on the empty state is NotFound; on the WAITING
job j1 it changes nothing; on the RUNNING job r1 at time 40 it resets the
heartbeat deadline to 160. -/
theorem Heartbeat_behavior_witness :
    emptyState.JobHeartbeat "z" 0 = Except.error (notFoundErr "z") ∧
    c1state.JobHeartbeat "j1" 5 = Except.ok c1state ∧
    c6state.JobHeartbeat "r1" 40 = Except.ok
      { c6state with
          inmem := idxInsert c6state.inmem
            { c6idx with StateTimer := some ⟨TimerKind.heartbeat, 160⟩ } } :=
  ⟨Heartbeat_behavior.1 emptyState "z" 0 rfl,
   Heartbeat_behavior.2.1 c1state "j1" c1idx 5 rfl (by decide),
   Heartbeat_behavior.2.2 c6state "r1" c6idx ⟨TimerKind.heartbeat, 127⟩ 40
     rfl rfl rfl⟩

/-- C9: when both a runner-targeted and an any candidate are available,
one assignment pass attempts and returns the candidate whose QueueTime is
strictly earlier, and on equal queue times the runner-targeted candidate
(listed first by the candidate queries), moving it to WAITING and
stamping its persisted AssignTime. -/
theorem Assign_fifo (s : State) (r : runnerRecord) (jt ja : jobIndex)
    (pt pa : pb.Job) (now : Nat)
    (hnd : (s.inmem.map (fun x => x.Id)).Nodup)
    (hby : r.ByIdOnly = false)
    (ht : s.jobCandidateById r = some jt)
    (ha : s.jobCandidateAny r = some ja)
    (hpt : dbLookup s.db jt.Id = some pt)
    (hpa : dbLookup s.db ja.Id = some pa)
    (hptid : pt.Id = jt.Id) (hpaid : pa.Id = ja.Id) :
    ∃ s2 jret, s.jobAssignOnce r now = AssignOutcome.assigned s2 jret ∧
      jret.Job.Id = (if ja.QueueTime < jt.QueueTime then ja.Id else jt.Id) ∧
      (findIdx s2.inmem
          (if ja.QueueTime < jt.QueueTime then ja.Id else jt.Id)).map
        (fun x => x.State) = some pb.Job_State.WAITING ∧
      (dbLookup s2.db
          (if ja.QueueTime < jt.QueueTime then ja.Id else jt.Id)).map
        (fun p => p.AssignTime) = some (some now) := by
  obtain ⟨htm, hts, _, htb⟩ := jobCandidateById_spec ht
  obtain ⟨ham, has, _, hab⟩ := jobCandidateAny_spec ha
  have hft : findIdx s.inmem jt.Id = some jt := findIdx_of_nodup htm hnd
  have hfa : findIdx s.inmem ja.Id = some ja := findIdx_of_nodup ham hnd
  unfold State.jobAssignOnce
  rw [ht, hby]
  simp only [Bool.false_eq_true, if_false, ha]
  by_cases hlt : ja.QueueTime < jt.QueueTime
  · simp only [sortCandidates, if_pos hlt]
    rw [jobAssignAttempt_head hfa has hab hpa]
    refine ⟨_, _, rfl, ?_, ?_, ?_⟩
    · exact hpaid
    · rw [findIdx_idxInsert']
      · rfl
      · rfl
    · rw [dbLookup_dbPut]
      rfl
  · simp only [sortCandidates, if_neg hlt]
    rw [jobAssignAttempt_head hft hts htb hpt]
    refine ⟨_, _, rfl, ?_, ?_, ?_⟩
    · exact hptid
    · rw [findIdx_idxInsert']
      · rfl
      · rfl
    · rw [dbLookup_dbPut]
      rfl

/-- C9 witness: in the state with the runner-targeted job t (queue time
5) and the any job y (queue time 3), a pass for runner run1 assigns y,
the job with the earlier queue time. -/
theorem Assign_fifo_witness :
    ∃ s2 jret, c9state.jobAssignOnce c9runner 7 =
        AssignOutcome.assigned s2 jret ∧
      jret.Job.Id = "y" ∧
      (findIdx s2.inmem "y").map (fun x => x.State) =
        some pb.Job_State.WAITING ∧
      (dbLookup s2.db "y").map (fun p => p.AssignTime) = some (some 7) :=
  Assign_fifo c9state c9runner c9idxT c9idxY c9jobT c9jobY 7 (by decide)
    rfl rfl rfl rfl rfl rfl rfl

/-- C10 counterexample: with an index record whose persisted record is
missing from the store, JobList succeeds with one entry for it, and that
entry is the non-nil zero-value record, not nil. -/
theorem List_failed_read_counterexample :
    c10state.JobList = Except.ok [some zeroJob] ∧
      (Except.ok [some zeroJob] : Except Err (List (Option pb.Job))) ≠
        Except.ok [(none : Option pb.Job)] :=
  ⟨rfl, by simp⟩

/-- C10 (amended): JobList discards per-record read errors and returns
success with one entry per index record; the entry in the position of an
index record whose persisted read fails is the non-nil zero-value
record. -/
theorem List_discards_read_errors (s : State) (k : Nat) (ix : jobIndex)
    (hk : s.inmem.get? k = some ix)
    (hmiss : dbLookup s.db ix.Id = none) :
    ∃ l, s.JobList = Except.ok l ∧ l.length = s.inmem.length ∧
      l.get? k = some (some zeroJob) := by
  have hk' : s.inmem[k]? = some ix := by
    rw [← List.get?_eq_getElem?]
    exact hk
  refine ⟨_, rfl, by simp [State.JobList], ?_⟩
  rw [List.get?_eq_getElem?, List.getElem?_map, hk']
  simp [State.jobById, dbGet, hmiss]

/-- C10 witness: on the state whose single index record has no persisted
record, the list is one success entry holding the zero-value record. -/
theorem List_discards_read_errors_witness :
    ∃ l, c10state.JobList = Except.ok l ∧
      l.length = c10state.inmem.length ∧
      l.get? 0 = some (some zeroJob) :=
  List_discards_read_errors c10state 0 c10idx rfl rfl

end Waypoint
